import Mathlib

/-!
Shallow embedding of the transactional stock ledger of the wholesale
application (Next.js API routes over MySQL).  Requests are modelled with
`Option` fields (absent JSON keys), money as `Rat` (DECIMAL(12,2) columns),
dates as abstract day numbers, and the database as in-memory lists.  Each
fallible SQL statement consults an injected fault oracle `Nat → Bool`
(step index ↦ does this query fail), which models driver/persistence
failures; `beginTransaction`/`rollback` semantics are modelled by
returning the pre-transaction state on any failure.
-/

namespace Wholesale

/-- JavaScript truthiness of an optional numeric field: an absent field and
`0` are falsy (`!x` holds); every other number, negative ones included, is
truthy. -/
def jsTruthyQ : Option Rat → Bool
  | none => false
  | some x => x != 0

/-- JavaScript truthiness of an optional id field: absent and `0` are falsy. -/
def jsTruthyId : Option Nat → Bool
  | none => false
  | some i => i != 0

/-- JavaScript truthiness of an optional string field: absent and `""` are falsy. -/
def jsTruthyStr : Option String → Bool
  | none => false
  | some s => s != ""

/-- `v || null`: an empty string is coerced to SQL NULL. -/
def normStr : Option String → Option String
  | none => none
  | some s => if s = "" then none else some s

/-- A row of the `inventory` table. -/
structure InventoryItem where
  id : Nat
  item_name : String
  category : String
  hsn_sac : Option String
  quantity : Rat
  rate : Rat
  specs : Option String

deriving instance DecidableEq for InventoryItem

/-- A row of the `purchases` table. -/
structure PurchaseRecord where
  id : Nat
  item_id : Option Nat
  quantity : Rat
  rate : Rat
  date : Nat
  vendor_name : Option String
  invoice_number : Option String
  cgst : Rat
  sgst : Rat
  igst : Rat

deriving instance DecidableEq for PurchaseRecord

/-- One entry of the `items` JSON document attached to a sale. -/
structure SaleLineItem where
  item_id : Option Nat
  quantity : Option Rat
  rate : Option Rat
  hsn_sac : Option String
  description : Option String

deriving instance DecidableEq for SaleLineItem

/-- A row of the `sales` table. -/
structure SaleRecord where
  id : Nat
  invoice_number : String
  customer_name : Option String
  customer_address : Option String
  customer_gstin : Option String
  place_of_supply : Option String
  vehicle_no : Option String
  items : List SaleLineItem
  taxable_total : Rat
  cgst : Rat
  sgst : Rat
  igst : Rat
  grand_total : Rat
  date : Nat

deriving instance DecidableEq for SaleRecord

/-- A row of the `expenses` table. -/
structure ExpenseRecord where
  id : Nat
  description : String
  amount : Rat
  category : Option String
  date : Nat

deriving instance DecidableEq for ExpenseRecord

/-- The whole database: the four tables plus their AUTO_INCREMENT counters. -/
structure State where
  inventory : List InventoryItem
  purchases : List PurchaseRecord
  sales : List SaleRecord
  expenses : List ExpenseRecord
  nextInvId : Nat
  nextPurId : Nat
  nextSaleId : Nat
  nextExpId : Nat

deriving instance DecidableEq for State

/-- Failure classes surfaced by the API routes: 400 validation failures and
500 transaction/write failures. -/
inductive Err where
  | validation
  | txFail

deriving instance DecidableEq for Err

/-- `isErr e` holds when an API call failed. -/
def isErr {α : Type} : Except Err α → Bool
  | Except.error _ => true
  | Except.ok _ => false

/-- The fault oracle that injects no persistence failures. -/
def noFaults : Nat → Bool := fun _ => false

/-- The fault oracle that fails every query. -/
def allFaults : Nat → Bool := fun _ => true

/-- POST /api/purchase request body. -/
structure PurchaseReq where
  item_id : Option Nat
  quantity : Option Rat
  rate : Option Rat
  date : Option Nat
  vendor_name : Option String
  invoice_number : Option String
  cgst : Option Rat
  sgst : Option Rat
  igst : Option Rat

deriving instance DecidableEq for PurchaseReq

/-- The `taxes` object of a POST /api/sales request body. -/
structure TaxesReq where
  cgst : Option Rat
  sgst : Option Rat
  igst : Option Rat

deriving instance DecidableEq for TaxesReq

/-- POST /api/sales request body. -/
structure SaleReq where
  customer_name : Option String
  customer_address : Option String
  customer_gstin : Option String
  place_of_supply : Option String
  vehicle_no : Option String
  items : List SaleLineItem
  taxes : Option TaxesReq

deriving instance DecidableEq for SaleReq

/-- The 201 response of POST /api/sales. -/
structure SaleOut where
  invoice_number : String
  grand_total : Rat

deriving instance DecidableEq for SaleOut

/-- POST /api/inventory request body. -/
structure ItemReq where
  item_name : Option String
  category : Option String
  hsn_sac : Option String
  quantity : Option Rat
  rate : Option Rat
  specs : Option String

deriving instance DecidableEq for ItemReq

/-- POST /api/expenses request body. -/
structure ExpenseReq where
  description : Option String
  amount : Option Rat
  category : Option String
  date : Option Nat

deriving instance DecidableEq for ExpenseReq

/-- `UPDATE inventory SET quantity = quantity + ? WHERE id = ?`. -/
def incQty (inv : List InventoryItem) (i : Nat) (q : Rat) : List InventoryItem :=
  inv.map (fun r => if r.id = i then { r with quantity := r.quantity + q } else r)

/-- `UPDATE inventory SET quantity = quantity - ? WHERE id = ?`. -/
def decQty (inv : List InventoryItem) (i : Nat) (q : Rat) : List InventoryItem :=
  inv.map (fun r => if r.id = i then { r with quantity := r.quantity - q } else r)

/-- `(item.rate || 0) * (item.quantity || 0)`. -/
def lineAmount (it : SaleLineItem) : Rat :=
  it.rate.getD 0 * it.quantity.getD 0

/-- `items.forEach(item => { taxableTotal += (item.rate || 0) * (item.quantity || 0) })`. -/
def taxableTotalOf (items : List SaleLineItem) : Rat :=
  items.foldl (fun acc it => acc + lineAmount it) 0

/-- `q > 0 && item.item_id`: does this sale line trigger an inventory UPDATE? -/
def qualifies (it : SaleLineItem) : Bool :=
  decide (0 < it.quantity.getD 0) && jsTruthyId it.item_id

/-- Reversed decimal digits of `n`, with explicit fuel so that the kernel can
evaluate it; `natDigitsRev n n` is the digit list of `n`. -/
def natDigitsRev : Nat → Nat → List Nat
  | _, 0 => []
  | 0, _ + 1 => []
  | fuel + 1, n + 1 => (n + 1) % 10 :: natDigitsRev fuel ((n + 1) / 10)

/-- JavaScript `String(n)` for a natural number: its decimal representation. -/
def jsNatToString (n : Nat) : String :=
  if n = 0 then "0" else String.mk ((natDigitsRev n n).reverse.map Nat.digitChar)

/-- JavaScript `s.padStart(3, '0')`. -/
def padStart3 (s : String) : String :=
  if 3 ≤ s.length then s else String.mk (List.replicate (3 - s.length) '0') ++ s

/-- The template string INV-year-paddedSeq of the sales route. -/
def mkInvoiceNumber (year seq : Nat) : String :=
  "INV-" ++ jsNatToString year ++ "-" ++ padStart3 (jsNatToString seq)

/-- Decides whether a character list matches the regular expression
INV-backslash-d-4-backslash-d-3-or-more (four year digits, a dash, at least
three sequence digits). -/
def isInvoiceFormatL : List Char → Bool
  | 'I' :: 'N' :: 'V' :: '-' :: y1 :: y2 :: y3 :: y4 :: '-' :: rest =>
      y1.isDigit && y2.isDigit && y3.isDigit && y4.isDigit &&
        decide (3 ≤ rest.length) && rest.all (fun c => c.isDigit)
  | _ => false

/-- String form of the invoice-format matcher. -/
def isInvoiceFormat (s : String) : Bool :=
  isInvoiceFormatL s.data

/-- The sequence of inventory UPDATEs issued by the sales route, one per line
item with positive quantity and truthy item id, starting at fault step
`step`; `none` means one of the UPDATEs failed (and the transaction is
rolled back by the caller). -/
def applySaleItems (faults : Nat → Bool) : Nat → List SaleLineItem → List InventoryItem →
    Option (List InventoryItem)
  | _, [], inv => some inv
  | step, it :: rest, inv =>
      if qualifies it then
        if faults step then none
        else applySaleItems faults (step + 1) rest
          (decQty inv (it.item_id.getD 0) (it.quantity.getD 0))
      else applySaleItems faults step rest inv

/-- The same UPDATE sequence without fault injection, as a plain fold. -/
def salesApply : List SaleLineItem → List InventoryItem → List InventoryItem
  | [], inv => inv
  | it :: rest, inv =>
      if qualifies it then salesApply rest (decQty inv (it.item_id.getD 0) (it.quantity.getD 0))
      else salesApply rest inv

/-- `taxes?.cgst || 0`. -/
def saleCgst (req : SaleReq) : Rat := (req.taxes.bind TaxesReq.cgst).getD 0

/-- `taxes?.sgst || 0`. -/
def saleSgst (req : SaleReq) : Rat := (req.taxes.bind TaxesReq.sgst).getD 0

/-- `taxes?.igst || 0`. -/
def saleIgst (req : SaleReq) : Rat := (req.taxes.bind TaxesReq.igst).getD 0

/-- `grandTotal = taxableTotal + cgst + sgst + igst`. -/
def saleGrand (req : SaleReq) : Rat :=
  taxableTotalOf req.items + saleCgst req + saleSgst req + saleIgst req

/-- The row inserted by `INSERT INTO sales (...)` for this request. -/
def saleRecordOf (year today : Nat) (st : State) (req : SaleReq) : SaleRecord :=
  { id := st.nextSaleId
    invoice_number := mkInvoiceNumber year (st.sales.length + 1)
    customer_name := normStr req.customer_name
    customer_address := normStr req.customer_address
    customer_gstin := normStr req.customer_gstin
    place_of_supply := normStr req.place_of_supply
    vehicle_no := normStr req.vehicle_no
    items := req.items
    taxable_total := taxableTotalOf req.items
    cgst := saleCgst req
    sgst := saleSgst req
    igst := saleIgst req
    grand_total := saleGrand req
    date := today }

/-- POST /api/sales: validate the items array, compute totals, then inside a
transaction count the existing sales to derive the invoice number (fault step
0), insert the SaleRecord (fault step 1), issue one inventory UPDATE per
qualifying line item (steps 2, 3, ...), and commit; any failure rolls the
whole transaction back. -/
def recordSale (faults : Nat → Bool) (year today : Nat) (st : State) (req : SaleReq) :
    State × Except Err SaleOut :=
  if req.items.isEmpty then (st, Except.error Err.validation)
  else if faults 0 then (st, Except.error Err.txFail)
  else if faults 1 then (st, Except.error Err.txFail)
  else
    match applySaleItems faults 2 req.items st.inventory with
    | none => (st, Except.error Err.txFail)
    | some inv =>
        ({ st with
            sales := st.sales ++ [saleRecordOf year today st req]
            inventory := inv
            nextSaleId := st.nextSaleId + 1 },
          Except.ok
            { invoice_number := mkInvoiceNumber year (st.sales.length + 1)
              grand_total := saleGrand req })

/-- The row inserted by `INSERT INTO purchases (...)` for this request. -/
def purchaseRecordOf (today : Nat) (st : State) (req : PurchaseReq) : PurchaseRecord :=
  { id := st.nextPurId
    item_id := some (req.item_id.getD 0)
    quantity := req.quantity.getD 0
    rate := req.rate.getD 0
    date := req.date.getD today
    vendor_name := normStr req.vendor_name
    invoice_number := normStr req.invoice_number
    cgst := req.cgst.getD 0
    sgst := req.sgst.getD 0
    igst := req.igst.getD 0 }

/-- POST /api/purchase: validate item_id, quantity and rate by JavaScript
truthiness, then inside a transaction insert the PurchaseRecord (fault step 0;
the insert also fails on the purchases.item_id foreign-key violation when the
item does not exist) and UPDATE the inventory quantity (fault step 1); any
failure rolls the transaction back. -/
def recordPurchase (faults : Nat → Bool) (today : Nat) (st : State) (req : PurchaseReq) :
    State × Except Err Nat :=
  if !jsTruthyId req.item_id || !jsTruthyQ req.quantity || !jsTruthyQ req.rate then
    (st, Except.error Err.validation)
  else if faults 0 || !(st.inventory.any (fun r => r.id == req.item_id.getD 0)) then
    (st, Except.error Err.txFail)
  else if faults 1 then (st, Except.error Err.txFail)
  else
    ({ st with
        purchases := st.purchases ++ [purchaseRecordOf today st req]
        inventory := incQty st.inventory (req.item_id.getD 0) (req.quantity.getD 0)
        nextPurId := st.nextPurId + 1 },
      Except.ok st.nextPurId)

/-- POST /api/inventory: validate item_name, category, quantity and rate by
JavaScript truthiness, then insert the row (fault step 0). -/
def createItem (faults : Nat → Bool) (st : State) (req : ItemReq) :
    State × Except Err Nat :=
  if !jsTruthyStr req.item_name || !jsTruthyStr req.category ||
      !jsTruthyQ req.quantity || !jsTruthyQ req.rate then
    (st, Except.error Err.validation)
  else if faults 0 then (st, Except.error Err.txFail)
  else
    let r : InventoryItem :=
      { id := st.nextInvId
        item_name := req.item_name.getD ""
        category := req.category.getD ""
        hsn_sac := normStr req.hsn_sac
        quantity := req.quantity.getD 0
        rate := req.rate.getD 0
        specs := req.specs }
    ({ st with
        inventory := st.inventory ++ [r]
        nextInvId := st.nextInvId + 1 },
      Except.ok r.id)

/-- POST /api/expenses: validate description and amount by JavaScript
truthiness, then insert the row (fault step 0). -/
def recordExpense (faults : Nat → Bool) (today : Nat) (st : State) (req : ExpenseReq) :
    State × Except Err Nat :=
  if !jsTruthyStr req.description || !jsTruthyQ req.amount then
    (st, Except.error Err.validation)
  else if faults 0 then (st, Except.error Err.txFail)
  else
    let e : ExpenseRecord :=
      { id := st.nextExpId
        description := req.description.getD ""
        amount := req.amount.getD 0
        category := normStr req.category
        date := req.date.getD today }
    ({ st with
        expenses := st.expenses ++ [e]
        nextExpId := st.nextExpId + 1 },
      Except.ok e.id)

/-- The aggregate block of GET /api/reports. -/
structure Summary where
  sales : Rat
  purchases : Rat
  expenses : Rat
  netProfit : Rat

deriving instance DecidableEq for Summary

/-- `date BETWEEN ? AND ?`. -/
def inRange (fromD toD d : Nat) : Bool :=
  decide (fromD ≤ d) && decide (d ≤ toD)

/-- GET /api/reports: the three IFNULL(SUM(...),0) aggregates over the date
window, and netProfit derived from them. -/
def summarize (fromD toD : Nat) (st : State) : Summary :=
  let s := (st.sales.filter (fun r => inRange fromD toD r.date)).foldl
    (fun acc r => acc + r.grand_total) 0
  let p := (st.purchases.filter (fun r => inRange fromD toD r.date)).foldl
    (fun acc r => acc + r.quantity * r.rate) 0
  let e := (st.expenses.filter (fun r => inRange fromD toD r.date)).foldl
    (fun acc r => acc + r.amount) 0
  { sales := s, purchases := p, expenses := e, netProfit := s - (p + e) }

/-- The stored quantity of the inventory item with id `i` (first matching
row), 0 when absent. -/
def qtyOf (inv : List InventoryItem) (i : Nat) : Rat :=
  match inv.find? (fun r => r.id == i) with
  | some r => r.quantity
  | none => 0

/-- Sum of the quantities of all purchase records referencing item `i`. -/
def purchSum (ps : List PurchaseRecord) (i : Nat) : Rat :=
  ((ps.filter (fun p => p.item_id == some i)).map (fun p => p.quantity)).sum

/-- Sum of the positive quantities among a sale's line items referencing
item `i`. -/
def lineSoldPos (items : List SaleLineItem) (i : Nat) : Rat :=
  ((items.filter (fun it => it.item_id == some i && decide (0 < it.quantity.getD 0))).map
    (fun it => it.quantity.getD 0)).sum

/-- Sum of the positive line-item quantities referencing item `i` over all
sale records. -/
def soldSumPos (ss : List SaleRecord) (i : Nat) : Rat :=
  (ss.map (fun s => lineSoldPos s.items i)).sum

/-- Sum of all line-item quantities referencing item `i` (no sign filter)
over all sale records; this is the Σ sold of the literal conservation claim. -/
def soldSumAll (ss : List SaleRecord) (i : Nat) : Rat :=
  (ss.map (fun s =>
    ((s.items.filter (fun it => it.item_id == some i)).map
      (fun it => it.quantity.getD 0)).sum)).sum

/-- A ledger-affecting request: the operations the conservation claim ranges
over. -/
inductive Op where
  | purchase (req : PurchaseReq)
  | sale (req : SaleReq)

/-- Run one request without injected faults; a failed request leaves the
state unchanged (rollback). -/
def runOp (year today : Nat) (st : State) : Op → State
  | Op.purchase r => (recordPurchase noFaults today st r).1
  | Op.sale r => (recordSale noFaults year today st r).1

/-- Run a list of requests in order. -/
def runOps (year today : Nat) (st : State) : List Op → State
  | [] => st
  | op :: rest => runOps year today (runOp year today st op) rest

/-- The invoice sequence numbers generated by the successful sales of a
request trace, in order. -/
def saleSeqs (year today : Nat) (st : State) : List Op → List Nat
  | [] => []
  | Op.purchase r :: rest => saleSeqs year today (recordPurchase noFaults today st r).1 rest
  | Op.sale r :: rest =>
      if isErr (recordSale noFaults year today st r).2 then
        saleSeqs year today (recordSale noFaults year today st r).1 rest
      else
        (st.sales.length + 1) :: saleSeqs year today (recordSale noFaults year today st r).1 rest

/-- Scenario fixture: the Widget item of §8 Scenario A. -/
def itemW : InventoryItem :=
  { id := 1, item_name := "Widget", category := "FMCG", hsn_sac := none, quantity := 100, rate := 10, specs := none }

/-- Scenario fixture: opening state, one item, empty ledgers. -/
def st0 : State :=
  { inventory := [itemW]
    purchases := []
    sales := []
    expenses := []
    nextInvId := 2
    nextPurId := 1
    nextSaleId := 1
    nextExpId := 1 }

/-- Scenario A purchase request: 50 units at rate 9. -/
def reqA : PurchaseReq :=
  { item_id := some 1, quantity := some 50, rate := some 9, date := none, vendor_name := none, invoice_number := none, cgst := none, sgst := none, igst := none }

/-- State after Scenario A (Widget quantity 150). -/
def stA : State := (recordPurchase noFaults 7 st0 reqA).1

/-- Scenario B sale line: 30 units at rate 10. -/
def lineB : SaleLineItem :=
  { item_id := some 1, quantity := some 30, rate := some 10, hsn_sac := none, description := none }

/-- Scenario B sale request with taxes cgst 5, sgst 5, igst 0. -/
def reqB : SaleReq :=
  { customer_name := none, customer_address := none, customer_gstin := none, place_of_supply := none, vehicle_no := none, items := [lineB], taxes := some { cgst := some 5, sgst := some 5, igst := some 0 } }

/-- State after Scenario B (Widget quantity 120). -/
def stB : State := (recordSale noFaults 2026 12 stA reqB).1

/-- Scenario D expense request: amount 50. -/
def reqE : ExpenseReq :=
  { description := some "misc", amount := some 50, category := none, date := none }

/-- State for Scenario D: Scenario A purchase, Scenario B sale, one expense. -/
def stD : State := (recordExpense noFaults 15 stB reqE).1

/-- A sale line referencing the non-existent item id 2. -/
def ghostLine : SaleLineItem :=
  { item_id := some 2, quantity := some 3, rate := some 5, hsn_sac := none, description := none }

/-- Scenario C sale request: single line referencing a non-existent item. -/
def reqGhost : SaleReq :=
  { customer_name := none, customer_address := none, customer_gstin := none, place_of_supply := none, vehicle_no := none, items := [ghostLine], taxes := none }

/-- A sale line with a negative quantity against the existing item 1. -/
def negLine : SaleLineItem :=
  { item_id := some 1, quantity := some (-5), rate := some 10, hsn_sac := none, description := none }

/-- A sale request whose only line has a negative quantity. -/
def reqNegSale : SaleReq :=
  { customer_name := none, customer_address := none, customer_gstin := none, place_of_supply := none, vehicle_no := none, items := [negLine], taxes := none }

/-- A sale request mixing a normal line with a negative-quantity line. -/
def reqMixed : SaleReq :=
  { customer_name := none, customer_address := none, customer_gstin := none, place_of_supply := none, vehicle_no := none, items := [lineB, negLine], taxes := none }

/-- A purchase request with a negative quantity (passes JS truthiness). -/
def reqNegPur : PurchaseReq :=
  { item_id := some 1, quantity := some (-5), rate := some 1, date := none, vendor_name := none, invoice_number := none, cgst := none, sgst := none, igst := none }

/-- An inventory-creation request whose quantity is 0. -/
def itemReqZero : ItemReq :=
  { item_name := some "Thing", category := some "Other", hsn_sac := none, quantity := some 0, rate := some 5, specs := none }

/-- A purchase request whose quantity is 0. -/
def purReqZero : PurchaseReq :=
  { item_id := some 1, quantity := some 0, rate := some 9, date := none, vendor_name := none, invoice_number := none, cgst := none, sgst := none, igst := none }

/-- An expense request whose amount is 0. -/
def expReqZero : ExpenseReq :=
  { description := some "misc", amount := some 0, category := none, date := none }

/-! Helper lemmas. -/

theorem foldl_add_eq_sum {α : Type} (f : α → Rat) (l : List α) (c : Rat) :
    l.foldl (fun acc x => acc + f x) c = c + (l.map f).sum := by
  induction l generalizing c with
  | nil => simp
  | cons x xs ih => simp [ih, add_assoc]

theorem taxableTotalOf_eq (items : List SaleLineItem) :
    taxableTotalOf items = (items.map lineAmount).sum := by
  simpa [taxableTotalOf] using foldl_add_eq_sum lineAmount items 0

theorem incQty_find? (inv : List InventoryItem) (i j : Nat) (q : Rat) :
    (incQty inv j q).find? (fun r => r.id == i) =
      (inv.find? (fun r => r.id == i)).map
        (fun r => if r.id = j then { r with quantity := r.quantity + q } else r) := by
  have hp : ((fun r : InventoryItem => r.id == i) ∘
      (fun r => if r.id = j then { r with quantity := r.quantity + q } else r)) =
      fun r : InventoryItem => r.id == i := by
    funext r
    by_cases hr : r.id = j <;> simp [Function.comp, hr]
  rw [incQty, List.find?_map, hp]

theorem decQty_find? (inv : List InventoryItem) (i j : Nat) (q : Rat) :
    (decQty inv j q).find? (fun r => r.id == i) =
      (inv.find? (fun r => r.id == i)).map
        (fun r => if r.id = j then { r with quantity := r.quantity - q } else r) := by
  have hp : ((fun r : InventoryItem => r.id == i) ∘
      (fun r => if r.id = j then { r with quantity := r.quantity - q } else r)) =
      fun r : InventoryItem => r.id == i := by
    funext r
    by_cases hr : r.id = j <;> simp [Function.comp, hr]
  rw [decQty, List.find?_map, hp]

theorem qtyOf_incQty_ne (inv : List InventoryItem) (i j : Nat) (q : Rat) (h : i ≠ j) :
    qtyOf (incQty inv j q) i = qtyOf inv i := by
  unfold qtyOf
  rw [incQty_find?]
  cases hf : inv.find? (fun r => r.id == i) with
  | none => rfl
  | some r =>
    have hri : r.id = i := by simpa using List.find?_some hf
    simp [hri, h]

theorem qtyOf_incQty_self (inv : List InventoryItem) (i : Nat) (q : Rat)
    (h : (inv.any fun r => r.id == i) = true) :
    qtyOf (incQty inv i q) i = qtyOf inv i + q := by
  unfold qtyOf
  rw [incQty_find?]
  cases hf : inv.find? (fun r => r.id == i) with
  | none =>
    rw [List.any_eq_true] at h
    have h2 : (inv.find? (fun r => r.id == i)).isSome := List.find?_isSome.mpr h
    rw [hf] at h2
    simp at h2
  | some r =>
    have hri : r.id = i := by simpa using List.find?_some hf
    simp [hri]

theorem qtyOf_decQty_ne (inv : List InventoryItem) (i j : Nat) (q : Rat) (h : i ≠ j) :
    qtyOf (decQty inv j q) i = qtyOf inv i := by
  unfold qtyOf
  rw [decQty_find?]
  cases hf : inv.find? (fun r => r.id == i) with
  | none => rfl
  | some r =>
    have hri : r.id = i := by simpa using List.find?_some hf
    simp [hri, h]

theorem qtyOf_decQty_self (inv : List InventoryItem) (i : Nat) (q : Rat)
    (h : (inv.any fun r => r.id == i) = true) :
    qtyOf (decQty inv i q) i = qtyOf inv i - q := by
  unfold qtyOf
  rw [decQty_find?]
  cases hf : inv.find? (fun r => r.id == i) with
  | none =>
    rw [List.any_eq_true] at h
    have h2 : (inv.find? (fun r => r.id == i)).isSome := List.find?_isSome.mpr h
    rw [hf] at h2
    simp at h2
  | some r =>
    have hri : r.id = i := by simpa using List.find?_some hf
    simp [hri]

theorem ids_incQty (inv : List InventoryItem) (j : Nat) (q : Rat) :
    (incQty inv j q).map (fun r => r.id) = inv.map (fun r => r.id) := by
  unfold incQty
  rw [List.map_map]
  apply List.map_congr_left
  intro r _
  by_cases hr : r.id = j <;> simp [Function.comp, hr]

theorem ids_decQty (inv : List InventoryItem) (j : Nat) (q : Rat) :
    (decQty inv j q).map (fun r => r.id) = inv.map (fun r => r.id) := by
  unfold decQty
  rw [List.map_map]
  apply List.map_congr_left
  intro r _
  by_cases hr : r.id = j <;> simp [Function.comp, hr]

theorem any_comp_id (l : List InventoryItem) (i : Nat) :
    (l.any fun r => r.id == i) = (l.map (fun r => r.id)).any (fun n => n == i) := by
  induction l with
  | nil => rfl
  | cons r rs ih => simp [List.any_cons, ih]

theorem any_id_eq {l₁ l₂ : List InventoryItem} (i : Nat)
    (h : l₁.map (fun r => r.id) = l₂.map (fun r => r.id)) :
    (l₁.any fun r => r.id == i) = (l₂.any fun r => r.id == i) := by
  rw [any_comp_id, any_comp_id, h]

theorem decQty_of_absent (inv : List InventoryItem) (j : Nat) (q : Rat)
    (h : ∀ r ∈ inv, r.id ≠ j) : decQty inv j q = inv := by
  induction inv with
  | nil => rfl
  | cons r rs ih =>
    have h1 : r.id ≠ j := h r (List.mem_cons_self r rs)
    have h2 := ih (fun x hx => h x (List.mem_cons_of_mem r hx))
    simp only [decQty, List.map_cons] at *
    rw [if_neg h1, h2]

theorem applySaleItems_noFaults (items : List SaleLineItem) :
    ∀ (step : Nat) (inv : List InventoryItem),
      applySaleItems noFaults step items inv = some (salesApply items inv) := by
  induction items with
  | nil =>
    intro step inv
    rfl
  | cons it rest ih =>
    intro step inv
    by_cases hq : qualifies it = true
    · rw [applySaleItems, salesApply, if_pos hq, if_pos hq]
      show applySaleItems noFaults (step + 1) rest _ = _
      exact ih (step + 1) _
    · rw [applySaleItems, salesApply, if_neg hq, if_neg hq]
      exact ih step inv

theorem salesApply_ids (items : List SaleLineItem) :
    ∀ inv : List InventoryItem,
      (salesApply items inv).map (fun r => r.id) = inv.map (fun r => r.id) := by
  induction items with
  | nil => intro inv; rfl
  | cons it rest ih =>
    intro inv
    by_cases hq : qualifies it = true
    · rw [salesApply, if_pos hq, ih, ids_decQty]
    · rw [salesApply, if_neg hq, ih]

theorem lineSoldPos_cons (it : SaleLineItem) (rest : List SaleLineItem) (i : Nat) :
    lineSoldPos (it :: rest) i =
      (if (it.item_id == some i && decide (0 < it.quantity.getD 0)) = true
        then it.quantity.getD 0 else 0) + lineSoldPos rest i := by
  unfold lineSoldPos
  rw [List.filter_cons]
  split
  · simp
  · simp

theorem qualifies_elim (it : SaleLineItem) (hq : qualifies it = true) :
    (0 : Rat) < it.quantity.getD 0 ∧ ∃ j : Nat, it.item_id = some j ∧ j ≠ 0 := by
  unfold qualifies jsTruthyId at hq
  cases hii : it.item_id with
  | none => rw [hii] at hq; simp at hq
  | some j =>
    rw [hii] at hq
    simp at hq
    exact ⟨hq.1, j, rfl, hq.2⟩

theorem qtyOf_salesApply (i : Nat) (hi : i ≠ 0) (items : List SaleLineItem) :
    ∀ inv : List InventoryItem, (inv.any fun r => r.id == i) = true →
      qtyOf (salesApply items inv) i = qtyOf inv i - lineSoldPos items i := by
  induction items with
  | nil =>
    intro inv _
    simp [salesApply, lineSoldPos]
  | cons it rest ih =>
    intro inv h
    rw [lineSoldPos_cons]
    by_cases hq : qualifies it = true
    · obtain ⟨hqpos, j, hj, hj0⟩ := qualifies_elim it hq
      have hgetD : it.item_id.getD 0 = j := by rw [hj]; rfl
      rw [salesApply, if_pos hq, hgetD]
      have hany : ((decQty inv j (it.quantity.getD 0)).any fun r => r.id == i) = true := by
        rw [any_id_eq i (ids_decQty inv j (it.quantity.getD 0))]
        exact h
      rw [ih _ hany]
      by_cases hij : j = i
      · subst hij
        rw [qtyOf_decQty_self inv j (it.quantity.getD 0) h]
        have hcond : (it.item_id == some j && decide (0 < it.quantity.getD 0)) = true := by
          simp [hj, hqpos]
        rw [if_pos hcond]
        ring
      · rw [qtyOf_decQty_ne inv i j (it.quantity.getD 0) (fun hc => hij hc.symm)]
        have hcond : (it.item_id == some i && decide (0 < it.quantity.getD 0)) = false := by
          simp [hj, hij]
        rw [hcond]
        simp
    · rw [salesApply, if_neg hq, ih _ h]
      have hcond : (it.item_id == some i && decide (0 < it.quantity.getD 0)) = false := by
        cases hii : it.item_id with
        | none => simp [hii]
        | some j =>
          by_cases hji : j = i
          · subst hji
            have hnpos : ¬ (0 : Rat) < it.quantity.getD 0 := by
              intro hpos
              apply hq
              unfold qualifies jsTruthyId
              rw [hii]
              simp [hpos, hi]
            simp [hii, hnpos]
          · simp [hii, hji]
      rw [hcond]
      simp

theorem salesApply_filter (items : List SaleLineItem) :
    ∀ inv : List InventoryItem,
      salesApply (items.filter qualifies) inv = salesApply items inv := by
  induction items with
  | nil => intro inv; rfl
  | cons it rest ih =>
    intro inv
    by_cases hq : qualifies it = true
    · rw [List.filter_cons_of_pos hq, salesApply, salesApply, if_pos hq, if_pos hq, ih]
    · rw [List.filter_cons_of_neg (by simpa using hq), salesApply, if_neg hq, ih]

theorem salesApply_of_no_ref (items : List SaleLineItem) :
    ∀ inv : List InventoryItem,
      (∀ it ∈ items, ∀ r ∈ inv, it.item_id ≠ some r.id) →
      salesApply items inv = inv := by
  induction items with
  | nil => intro inv _; rfl
  | cons it rest ih =>
    intro inv h
    have hrest : ∀ x ∈ rest, ∀ r ∈ inv, x.item_id ≠ some r.id :=
      fun x hx => h x (List.mem_cons_of_mem it hx)
    by_cases hq : qualifies it = true
    · obtain ⟨_, j, hj, _⟩ := qualifies_elim it hq
      have hgetD : it.item_id.getD 0 = j := by rw [hj]; rfl
      have habs : decQty inv j (it.quantity.getD 0) = inv := by
        apply decQty_of_absent
        intro r hr hrj
        exact h it (List.mem_cons_self it rest) r hr (by rw [hj, hrj])
      rw [salesApply, if_pos hq, hgetD, habs, ih inv hrest]
    · rw [salesApply, if_neg hq, ih inv hrest]

theorem purchSum_append (ps : List PurchaseRecord) (p : PurchaseRecord) (i : Nat) :
    purchSum (ps ++ [p]) i =
      purchSum ps i + (if (p.item_id == some i) = true then p.quantity else 0) := by
  unfold purchSum
  rw [List.filter_append, List.map_append, List.sum_append]
  congr 1
  by_cases hp : (p.item_id == some i) = true <;> simp [hp]

theorem soldSumPos_append (ss : List SaleRecord) (s : SaleRecord) (i : Nat) :
    soldSumPos (ss ++ [s]) i = soldSumPos ss i + lineSoldPos s.items i := by
  unfold soldSumPos
  rw [List.map_append, List.sum_append]
  simp [lineSoldPos]

theorem recordPurchase_cases (faults : Nat → Bool) (today : Nat) (st : State) (req : PurchaseReq) :
    ((recordPurchase faults today st req).1 = st ∧
      isErr (recordPurchase faults today st req).2 = true) ∨
    ((recordPurchase faults today st req).1 =
        { st with
            purchases := st.purchases ++ [purchaseRecordOf today st req]
            inventory := incQty st.inventory (req.item_id.getD 0) (req.quantity.getD 0)
            nextPurId := st.nextPurId + 1 } ∧
      (st.inventory.any fun r => r.id == req.item_id.getD 0) = true ∧
      (recordPurchase faults today st req).2 = Except.ok st.nextPurId) := by
  unfold recordPurchase
  split
  next h1 => exact Or.inl ⟨rfl, rfl⟩
  next h1 =>
    split
    next h2 => exact Or.inl ⟨rfl, rfl⟩
    next h2 =>
      split
      next h3 => exact Or.inl ⟨rfl, rfl⟩
      next h3 =>
        right
        simp only [Bool.or_eq_true, Bool.not_eq_true', not_or] at h2
        exact ⟨rfl, by simpa using h2.2, rfl⟩

theorem recordPurchase_err_state (faults : Nat → Bool) (today : Nat) (st : State) (req : PurchaseReq)
    (h : isErr (recordPurchase faults today st req).2 = true) :
    (recordPurchase faults today st req).1 = st := by
  rcases recordPurchase_cases faults today st req with ⟨hc, _⟩ | ⟨_, _, hok⟩
  · exact hc
  · rw [hok] at h
    simp [isErr] at h

theorem recordPurchase_sales (faults : Nat → Bool) (today : Nat) (st : State) (req : PurchaseReq) :
    (recordPurchase faults today st req).1.sales = st.sales := by
  rcases recordPurchase_cases faults today st req with ⟨hc, _⟩ | ⟨hc, _, _⟩ <;> rw [hc]

theorem recordSale_cases (faults : Nat → Bool) (year today : Nat) (st : State) (req : SaleReq) :
    ((recordSale faults year today st req).1 = st ∧
      isErr (recordSale faults year today st req).2 = true) ∨
    (∃ inv, applySaleItems faults 2 req.items st.inventory = some inv ∧
      req.items.isEmpty = false ∧
      recordSale faults year today st req =
        ({ st with
            sales := st.sales ++ [saleRecordOf year today st req]
            inventory := inv
            nextSaleId := st.nextSaleId + 1 },
          Except.ok
            { invoice_number := mkInvoiceNumber year (st.sales.length + 1)
              grand_total := saleGrand req })) := by
  unfold recordSale
  split
  next h1 => exact Or.inl ⟨rfl, rfl⟩
  next h1 =>
    split
    next h2 => exact Or.inl ⟨rfl, rfl⟩
    next h2 =>
      split
      next h3 => exact Or.inl ⟨rfl, rfl⟩
      next h3 =>
        split
        next happ => exact Or.inl ⟨rfl, rfl⟩
        next inv happ =>
          right
          exact ⟨inv, happ, by simpa using h1, rfl⟩

theorem recordSale_err_state (faults : Nat → Bool) (year today : Nat) (st : State) (req : SaleReq)
    (h : isErr (recordSale faults year today st req).2 = true) :
    (recordSale faults year today st req).1 = st := by
  rcases recordSale_cases faults year today st req with ⟨hc, _⟩ | ⟨inv, _, _, hc⟩
  · exact hc
  · rw [hc] at h
    simp [isErr] at h

theorem runOp_inventory_ids (year today : Nat) (st : State) (op : Op) :
    (runOp year today st op).inventory.map (fun r => r.id) = st.inventory.map (fun r => r.id) := by
  cases op with
  | purchase r =>
    rcases recordPurchase_cases noFaults today st r with ⟨hc, _⟩ | ⟨hc, _, _⟩
    · rw [runOp, hc]
    · rw [runOp, hc]
      exact ids_incQty st.inventory _ _
  | sale r =>
    rcases recordSale_cases noFaults year today st r with ⟨hc, _⟩ | ⟨inv, happ, _, hc⟩
    · rw [runOp, hc]
    · have hinv : inv = salesApply r.items st.inventory := by
        have h2 := applySaleItems_noFaults r.items 2 st.inventory
        rw [happ] at h2
        exact Option.some.inj h2
      rw [runOp, hc]
      show inv.map _ = _
      rw [hinv]
      exact salesApply_ids r.items st.inventory

theorem runOp_balance (year today i : Nat) (hi : i ≠ 0) (st : State) (op : Op)
    (h : (st.inventory.any fun r => r.id == i) = true) :
    qtyOf (runOp year today st op).inventory i
        - purchSum (runOp year today st op).purchases i
        + soldSumPos (runOp year today st op).sales i
      = qtyOf st.inventory i - purchSum st.purchases i + soldSumPos st.sales i := by
  cases op with
  | purchase r =>
    rcases recordPurchase_cases noFaults today st r with ⟨hc, _⟩ | ⟨hc, hany, _⟩
    · rw [runOp, hc]
    · rw [runOp, hc]
      show qtyOf (incQty st.inventory (r.item_id.getD 0) (r.quantity.getD 0)) i
          - purchSum (st.purchases ++ [purchaseRecordOf today st r]) i
          + soldSumPos st.sales i = _
      rw [purchSum_append]
      by_cases hii : r.item_id.getD 0 = i
      · have hcond : ((purchaseRecordOf today st r).item_id == some i) = true := by
          simp [purchaseRecordOf, hii]
        rw [if_pos hcond, hii, qtyOf_incQty_self st.inventory i (r.quantity.getD 0) h]
        show qtyOf st.inventory i + r.quantity.getD 0
            - (purchSum st.purchases i + (purchaseRecordOf today st r).quantity)
            + soldSumPos st.sales i = _
        have hq : (purchaseRecordOf today st r).quantity = r.quantity.getD 0 := rfl
        rw [hq]
        ring
      · have hcond : ((purchaseRecordOf today st r).item_id == some i) = false := by
          simp [purchaseRecordOf, hii]
        rw [hcond, qtyOf_incQty_ne st.inventory i (r.item_id.getD 0) (r.quantity.getD 0)
          (fun hc2 => hii hc2.symm)]
        simp
  | sale r =>
    rcases recordSale_cases noFaults year today st r with ⟨hc, _⟩ | ⟨inv, happ, _, hc⟩
    · rw [runOp, hc]
    · have hinv : inv = salesApply r.items st.inventory := by
        have h2 := applySaleItems_noFaults r.items 2 st.inventory
        rw [happ] at h2
        exact Option.some.inj h2
      rw [runOp, hc]
      show qtyOf inv i - purchSum st.purchases i
          + soldSumPos (st.sales ++ [saleRecordOf year today st r]) i = _
      rw [soldSumPos_append]
      have hitems : (saleRecordOf year today st r).items = r.items := rfl
      rw [hitems, hinv, qtyOf_salesApply i hi r.items st.inventory h]
      ring

theorem runOps_balance (year today i : Nat) (hi : i ≠ 0) (ops : List Op) :
    ∀ st : State, (st.inventory.any fun r => r.id == i) = true →
      qtyOf (runOps year today st ops).inventory i
          - purchSum (runOps year today st ops).purchases i
          + soldSumPos (runOps year today st ops).sales i
        = qtyOf st.inventory i - purchSum st.purchases i + soldSumPos st.sales i := by
  induction ops with
  | nil =>
    intro st h
    rfl
  | cons op rest ih =>
    intro st h
    have h2 : ((runOp year today st op).inventory.any fun r => r.id == i) = true := by
      rw [any_id_eq i (runOp_inventory_ids year today st op)]
      exact h
    rw [runOps, ih _ h2, runOp_balance year today i hi st op h]

theorem saleSeqs_chain (year today : Nat) (ops : List Op) :
    ∀ st : State,
      List.Chain' (fun a b => a < b) (saleSeqs year today st ops) ∧
      ∀ x ∈ saleSeqs year today st ops, st.sales.length < x := by
  induction ops with
  | nil =>
    intro st
    exact ⟨List.chain'_nil, by simp [saleSeqs]⟩
  | cons op rest ih =>
    intro st
    cases op with
    | purchase r =>
      rw [saleSeqs]
      refine ⟨(ih _).1, fun x hx => ?_⟩
      have hb := (ih _).2 x hx
      rwa [recordPurchase_sales] at hb
    | sale r =>
      rw [saleSeqs]
      by_cases he : isErr (recordSale noFaults year today st r).2 = true
      · rw [if_pos he]
        refine ⟨(ih _).1, fun x hx => ?_⟩
        have hb := (ih _).2 x hx
        rwa [recordSale_err_state noFaults year today st r he] at hb
      · rw [if_neg he]
        rcases recordSale_cases noFaults year today st r with ⟨_, herr⟩ | ⟨inv, _, _, hc⟩
        · exact absurd herr he
        · have hlen : (recordSale noFaults year today st r).1.sales.length
              = st.sales.length + 1 := by
            rw [hc]
            simp
          constructor
          · rw [List.chain'_cons']
            refine ⟨fun y hy => ?_, (ih _).1⟩
            have hmem : y ∈ saleSeqs year today (recordSale noFaults year today st r).1 rest :=
              List.mem_of_mem_head? hy
            have hb := (ih _).2 y hmem
            omega
          · intro x hx
            rcases List.mem_cons.mp hx with hx1 | hx2
            · omega
            · have hb := (ih _).2 x hx2
              omega

theorem natDigitsRev_eq_digits : ∀ fuel n : Nat, n ≤ fuel → natDigitsRev fuel n = Nat.digits 10 n := by
  intro fuel
  induction fuel with
  | zero =>
    intro n h
    have h0 : n = 0 := Nat.le_zero.mp h
    subst h0
    rw [Nat.digits_zero]
    rfl
  | succ f ih =>
    intro n h
    cases n with
    | zero =>
      rw [Nat.digits_zero]
      rfl
    | succ m =>
      have e : natDigitsRev (f + 1) (m + 1) = (m + 1) % 10 :: natDigitsRev f ((m + 1) / 10) := rfl
      have hlt : (m + 1) / 10 < m + 1 := Nat.div_lt_self (Nat.succ_pos m) (by norm_num)
      rw [e, ih ((m + 1) / 10) (by omega),
        Nat.digits_def' (by norm_num : (1 : Nat) < 10) (Nat.succ_pos m)]

theorem digitChar_isDigit : ∀ d : Nat, d < 10 → (Nat.digitChar d).isDigit = true := by decide

theorem jsNatToString_data (n : Nat) (hn : n ≠ 0) :
    (jsNatToString n).data = (Nat.digits 10 n).reverse.map Nat.digitChar := by
  rw [jsNatToString, if_neg hn, natDigitsRev_eq_digits n n le_rfl]

theorem jsNatToString_digits (n : Nat) :
    ∀ c ∈ (jsNatToString n).data, c.isDigit = true := by
  intro c hc
  by_cases hn : n = 0
  · subst hn
    have h0 : (jsNatToString 0).data = ['0'] := rfl
    rw [h0] at hc
    have : c = '0' := by simpa using hc
    rw [this]
    rfl
  · rw [jsNatToString_data n hn, List.mem_map] at hc
    obtain ⟨d, hd, rfl⟩ := hc
    rw [List.mem_reverse] at hd
    exact digitChar_isDigit d (Nat.digits_lt_base (by norm_num) hd)

theorem jsNatToString_year (y : Nat) (h1 : 1000 ≤ y) (h2 : y < 10000) :
    ∃ a b c d : Char, (jsNatToString y).data = [a, b, c, d] := by
  have hy : y ≠ 0 := by omega
  have e3 : (10 : Nat) ^ 3 = 1000 := by norm_num
  have e4 : (10 : Nat) ^ (3 + 1) = 10000 := by norm_num
  have hlog : Nat.log 10 y = 3 :=
    Nat.log_eq_of_pow_le_of_lt_pow (e3 ▸ h1) (e4 ▸ h2)
  have hlen4 : ((jsNatToString y).data).length = 4 := by
    rw [jsNatToString_data y hy, List.length_map, List.length_reverse,
      Nat.digits_len 10 y (by norm_num) hy, hlog]
  cases hL : (jsNatToString y).data with
  | nil => rw [hL] at hlen4; simp at hlen4
  | cons a t =>
    rw [hL] at hlen4
    simp only [List.length_cons, Nat.succ.injEq] at hlen4
    obtain ⟨b, c, d, ht⟩ := List.length_eq_three.mp hlen4
    exact ⟨a, b, c, d, by rw [ht]⟩

theorem padStart3_digits (s : String) (h : ∀ c ∈ s.data, c.isDigit = true) :
    (∀ c ∈ (padStart3 s).data, c.isDigit = true) ∧ 3 ≤ (padStart3 s).data.length := by
  unfold padStart3
  split
  next h3 =>
    exact ⟨h, h3⟩
  next h3 =>
    constructor
    · intro c hc
      rw [String.data_append] at hc
      rcases List.mem_append.mp hc with hc1 | hc2
      · have : c = '0' := List.eq_of_mem_replicate (by simpa using hc1)
        rw [this]
        rfl
      · exact h c hc2
    · rw [String.data_append]
      have hsl : s.length = s.data.length := rfl
      simp only [List.length_append, List.length_replicate]
      omega

theorem isInvoiceFormatL_of (ys zs : List Char) (h4 : ys.length = 4)
    (hys : ∀ c ∈ ys, c.isDigit = true) (h3 : 3 ≤ zs.length)
    (hzs : ∀ c ∈ zs, c.isDigit = true) :
    isInvoiceFormatL ('I' :: 'N' :: 'V' :: '-' :: (ys ++ '-' :: zs)) = true := by
  have hlen : ys.length = 3 + 1 := h4
  cases hL : ys with
  | nil => rw [hL] at h4; simp at h4
  | cons a t =>
    rw [hL] at h4
    simp only [List.length_cons, Nat.succ.injEq] at h4
    obtain ⟨b, c, d, ht⟩ := List.length_eq_three.mp h4
    subst ht
    subst hL
    simp only [List.cons_append, List.nil_append, isInvoiceFormatL]
    rw [hys a (by simp), hys b (by simp), hys c (by simp), hys d (by simp)]
    simp only [Bool.true_and]
    rw [Bool.and_eq_true]
    constructor
    · exact decide_eq_true h3
    · rw [List.all_eq_true]
      intro x hx
      exact hzs x hx

theorem mkInvoiceNumber_data (year seq : Nat) :
    (mkInvoiceNumber year seq).data =
      'I' :: 'N' :: 'V' :: '-' ::
        ((jsNatToString year).data ++ '-' :: (padStart3 (jsNatToString seq)).data) := by
  have hinv : ("INV-" : String).data = ['I', 'N', 'V', '-'] := rfl
  have hdash : ("-" : String).data = ['-'] := rfl
  unfold mkInvoiceNumber
  rw [String.data_append, String.data_append, String.data_append, hinv, hdash]
  simp

theorem mkInvoiceNumber_format (year seq : Nat) (h1 : 1000 ≤ year) (h2 : year < 10000) :
    isInvoiceFormat (mkInvoiceNumber year seq) = true := by
  obtain ⟨a, b, c, d, habcd⟩ := jsNatToString_year year h1 h2
  obtain ⟨hpd, hpl⟩ := padStart3_digits (jsNatToString seq) (jsNatToString_digits seq)
  rw [isInvoiceFormat, mkInvoiceNumber_data year seq, habcd]
  apply isInvoiceFormatL_of
  · rfl
  · intro ch hch
    rw [← habcd] at hch
    exact jsNatToString_digits year ch hch
  · exact hpl
  · exact hpd

theorem recordSale_noFaults_ok (year today : Nat) (st : State) (req : SaleReq)
    (hne : req.items.isEmpty = false) :
    recordSale noFaults year today st req =
      ({ st with
          sales := st.sales ++ [saleRecordOf year today st req]
          inventory := salesApply req.items st.inventory
          nextSaleId := st.nextSaleId + 1 },
        Except.ok
          { invoice_number := mkInvoiceNumber year (st.sales.length + 1)
            grand_total := saleGrand req }) := by
  have happ := applySaleItems_noFaults req.items 2 st.inventory
  simp [recordSale, hne, noFaults, happ]

/-! Claim theorems. -/

/-- C3: atomicity of sales — for every fault pattern, if any step of the
recordSale transaction fails (the SaleRecord insert included, or any line
item's quantity UPDATE), the resulting state equals the initial state: no
SaleRecord and none of the quantity mutations are visible, the whole sale is
rolled back. -/
theorem C3_sale_atomicity (faults : Nat → Bool) (year today : Nat) (st : State) (req : SaleReq)
    (h : isErr (recordSale faults year today st req).2 = true) :
    (recordSale faults year today st req).1 = st :=
  recordSale_err_state faults year today st req h

/-- The fault oracle that fails only the first line-item UPDATE of a sale. -/
def faultAtFirstUpdate : Nat → Bool := fun n => n == 2

/-- C3 witness: a concrete sale whose line-item UPDATE fails mid-transaction
leaves the concrete state unchanged. -/
theorem C3_sale_atomicity_witness :
    isErr (recordSale faultAtFirstUpdate 2026 12 stA reqB).2 = true ∧
    (recordSale faultAtFirstUpdate 2026 12 stA reqB).1 = stA :=
  ⟨by with_unfolding_all rfl,
    C3_sale_atomicity faultAtFirstUpdate 2026 12 stA reqB (by with_unfolding_all rfl)⟩

/-- C5 counterexample: the request with item_id 1, quantity −5, rate 1
violates the claimed precondition quantity > 0, yet recordPurchase does not
reject it with a ValidationError — it succeeds. -/
theorem C5_counterexample :
    reqNegPur.quantity = some (-5) ∧ ¬ ((0 : Rat) < -5) ∧
    (recordPurchase noFaults 7 st0 reqNegPur).2 = Except.ok 1 := by
  refine ⟨rfl, by norm_num, ?_⟩
  with_unfolding_all rfl

/-- C5 amended: recordPurchase rejects with a ValidationError — synchronously,
returning the state unchanged before any ledger write or inventory mutation —
exactly when item_id, quantity or rate is missing or zero (JavaScript-falsy);
merely negative quantities or rates are not rejected. -/
theorem C5_purchase_validation (faults : Nat → Bool) (today : Nat) (st : State)
    (req : PurchaseReq)
    (h : jsTruthyId req.item_id = false ∨ jsTruthyQ req.quantity = false ∨
      jsTruthyQ req.rate = false) :
    recordPurchase faults today st req = (st, Except.error Err.validation) := by
  unfold recordPurchase
  rcases h with h | h | h <;> simp [h]

/-- C5 witness: the zero-quantity purchase request is validation-rejected with
no state change. -/
theorem C5_purchase_validation_witness :
    jsTruthyQ purReqZero.quantity = false ∧
    recordPurchase noFaults 7 st0 purReqZero = (st0, Except.error Err.validation) :=
  ⟨rfl, C5_purchase_validation noFaults 7 st0 purReqZero (Or.inr (Or.inl rfl))⟩

/-- C10: a required numeric field equal to 0 is rejected exactly like a
missing field — create inventory item with quantity 0 or rate 0, record
purchase with quantity 0 or rate 0, and record expense with amount 0 are all
rejected with the 400 validation error and no state change, the same outcome
as when the field is absent. -/
theorem C10_zero_like_missing (faults : Nat → Bool) (today : Nat) (st : State) :
    (∀ req : ItemReq,
      req.quantity = some 0 ∨ req.quantity = none ∨ req.rate = some 0 ∨ req.rate = none →
      createItem faults st req = (st, Except.error Err.validation)) ∧
    (∀ req : PurchaseReq,
      req.quantity = some 0 ∨ req.quantity = none ∨ req.rate = some 0 ∨ req.rate = none →
      recordPurchase faults today st req = (st, Except.error Err.validation)) ∧
    (∀ req : ExpenseReq,
      req.amount = some 0 ∨ req.amount = none →
      recordExpense faults today st req = (st, Except.error Err.validation)) := by
  refine ⟨fun req h => ?_, fun req h => ?_, fun req h => ?_⟩
  · unfold createItem
    rcases h with h | h | h | h <;> simp [h, jsTruthyQ]
  · unfold recordPurchase
    rcases h with h | h | h | h <;> simp [h, jsTruthyQ]
  · unfold recordExpense
    rcases h with h | h <;> simp [h, jsTruthyQ]

/-- C10 witness: the three concrete zero-field requests are all rejected with
the validation error and an unchanged state. -/
theorem C10_zero_like_missing_witness :
    createItem noFaults st0 itemReqZero = (st0, Except.error Err.validation) ∧
    recordPurchase noFaults 7 st0 purReqZero = (st0, Except.error Err.validation) ∧
    recordExpense noFaults 7 st0 expReqZero = (st0, Except.error Err.validation) :=
  ⟨(C10_zero_like_missing noFaults 7 st0).1 itemReqZero (Or.inl rfl),
    (C10_zero_like_missing noFaults 7 st0).2.1 purReqZero (Or.inl rfl),
    (C10_zero_like_missing noFaults 7 st0).2.2 expReqZero (Or.inl rfl)⟩

/-- C1 counterexample: Scenario C run against the code — a recordSale request
whose only line item references the non-existent item id 2 does not fail with
a not-found error: it succeeds, a SaleRecord is persisted, and inventory is
unchanged. -/
theorem C1_counterexample :
    (∀ r ∈ st0.inventory, r.id ≠ 2) ∧
    isErr (recordSale noFaults 2026 7 st0 reqGhost).2 = false ∧
    (recordSale noFaults 2026 7 st0 reqGhost).1.sales.length = 1 ∧
    (recordSale noFaults 2026 7 st0 reqGhost).1.inventory = st0.inventory := by
  refine ⟨?_, ?_, ?_, ?_⟩
  · intro r hr
    have hr1 : r = itemW := by simpa [st0] using hr
    rw [hr1]
    decide
  · with_unfolding_all rfl
  · with_unfolding_all rfl
  · with_unfolding_all rfl

/-- C1 amended: recordSale performs no existence check on line-item ids — a
sale whose line items reference only non-existent items does not fail with a
NotFoundError but succeeds, the SaleRecord (containing those lines) is
persisted, and every inventory quantity is unchanged. -/
theorem C1_no_existence_check (year today : Nat) (st : State) (req : SaleReq)
    (hne : req.items.isEmpty = false)
    (h : ∀ it ∈ req.items, ∀ r ∈ st.inventory, it.item_id ≠ some r.id) :
    isErr (recordSale noFaults year today st req).2 = false ∧
    (recordSale noFaults year today st req).1.inventory = st.inventory ∧
    (recordSale noFaults year today st req).1.sales
      = st.sales ++ [saleRecordOf year today st req] := by
  have hok := recordSale_noFaults_ok year today st req hne
  have hid : salesApply req.items st.inventory = st.inventory :=
    salesApply_of_no_ref req.items st.inventory h
  rw [hok]
  exact ⟨rfl, hid, rfl⟩

/-- C1 amended witness: the Scenario C request against the concrete opening
state. -/
theorem C1_no_existence_check_witness :
    isErr (recordSale noFaults 2026 7 st0 reqGhost).2 = false ∧
    (recordSale noFaults 2026 7 st0 reqGhost).1.inventory = st0.inventory ∧
    (recordSale noFaults 2026 7 st0 reqGhost).1.sales
      = st0.sales ++ [saleRecordOf 2026 7 st0 reqGhost] :=
  C1_no_existence_check 2026 7 st0 reqGhost rfl (by
    intro it hit r hr
    have hit1 : it = ghostLine := by simpa [reqGhost] using hit
    have hr1 : r = itemW := by simpa [st0] using hr
    rw [hit1, hr1]
    decide)

/-- C4: for every successful recordSale, the returned grand total and the
persisted record satisfy taxableTotal = Σ rate·quantity over the line items
and grandTotal = taxableTotal + cgst + sgst + igst with the caller-supplied
tax amounts, and the record stores the full line-item list. -/
theorem C4_sale_totals (faults : Nat → Bool) (year today : Nat) (st : State) (req : SaleReq)
    (c s g : Rat) (out : SaleOut)
    (ht : req.taxes = some { cgst := some c, sgst := some s, igst := some g })
    (h : (recordSale faults year today st req).2 = Except.ok out) :
    out.grand_total = (req.items.map lineAmount).sum + c + s + g ∧
    ∃ sr : SaleRecord,
      (recordSale faults year today st req).1.sales = st.sales ++ [sr] ∧
      sr.items = req.items ∧
      sr.taxable_total = (req.items.map lineAmount).sum ∧
      sr.grand_total = (req.items.map lineAmount).sum + c + s + g := by
  have hg : saleGrand req = (req.items.map lineAmount).sum + c + s + g := by
    unfold saleGrand saleCgst saleSgst saleIgst
    rw [ht, taxableTotalOf_eq]
    simp
  rcases recordSale_cases faults year today st req with ⟨_, herr⟩ | ⟨inv, _, _, hc⟩
  · rw [h] at herr
    simp [isErr] at herr
  · rw [hc] at h
    have hout : out =
        { invoice_number := mkInvoiceNumber year (st.sales.length + 1)
          grand_total := saleGrand req } :=
      (Except.ok.inj h).symm
    refine ⟨by rw [hout]; exact hg, saleRecordOf year today st req, ?_, rfl, ?_, ?_⟩
    · rw [hc]
    · show taxableTotalOf req.items = _
      exact taxableTotalOf_eq req.items
    · show saleGrand req = _
      exact hg

/-- C4 witness: Scenario B — one line of 30 units at rate 10 with taxes
cgst 5, sgst 5, igst 0 yields taxableTotal 300 and grandTotal 310. -/
theorem C4_sale_totals_witness :
    (recordSale noFaults 2026 12 stA reqB).2
      = Except.ok { invoice_number := mkInvoiceNumber 2026 1, grand_total := 310 } ∧
    (310 : Rat) = (reqB.items.map lineAmount).sum + 5 + 5 + 0 ∧
    (reqB.items.map lineAmount).sum = 300 := by
  have hok : (recordSale noFaults 2026 12 stA reqB).2
      = Except.ok { invoice_number := mkInvoiceNumber 2026 1, grand_total := 310 } := by
    with_unfolding_all rfl
  have h := (C4_sale_totals noFaults 2026 12 stA reqB 5 5 0 _ rfl hok).1
  refine ⟨hok, by simpa using h, by with_unfolding_all rfl⟩

/-- C8: every successful recordPurchase of quantity q against item i increases
item i's stored quantity by exactly q, leaves every other item's quantity
unchanged, and appends exactly the new purchase record. -/
theorem C8_purchase_frame (faults : Nat → Bool) (today : Nat) (st : State) (req : PurchaseReq)
    (i n : Nat) (q : Rat)
    (hid : req.item_id = some i) (hq : req.quantity = some q)
    (h : (recordPurchase faults today st req).2 = Except.ok n) :
    qtyOf (recordPurchase faults today st req).1.inventory i = qtyOf st.inventory i + q ∧
    (∀ j : Nat, j ≠ i →
      qtyOf (recordPurchase faults today st req).1.inventory j = qtyOf st.inventory j) ∧
    (recordPurchase faults today st req).1.purchases
      = st.purchases ++ [purchaseRecordOf today st req] := by
  rcases recordPurchase_cases faults today st req with ⟨_, herr⟩ | ⟨hc, hany, _⟩
  · rw [h] at herr
    simp [isErr] at herr
  · have hgi : req.item_id.getD 0 = i := by rw [hid]; rfl
    have hgq : req.quantity.getD 0 = q := by rw [hq]; rfl
    rw [hgi] at hc hany
    rw [hgq] at hc
    rw [hc]
    refine ⟨qtyOf_incQty_self st.inventory i q hany, fun j hj => ?_, rfl⟩
    exact qtyOf_incQty_ne st.inventory j i q hj

/-- C8 witness: Scenario A — the item with quantity 100 receiving a purchase
of quantity 50 ends with quantity 150, and absent items are untouched. -/
theorem C8_purchase_frame_witness :
    (recordPurchase noFaults 7 st0 reqA).2 = Except.ok 1 ∧
    qtyOf st0.inventory 1 = 100 ∧
    qtyOf (recordPurchase noFaults 7 st0 reqA).1.inventory 1 = 150 ∧
    qtyOf (recordPurchase noFaults 7 st0 reqA).1.inventory 2 = qtyOf st0.inventory 2 := by
  have hok : (recordPurchase noFaults 7 st0 reqA).2 = Except.ok 1 := by
    with_unfolding_all rfl
  have h := C8_purchase_frame noFaults 7 st0 reqA 1 1 50 rfl rfl hok
  refine ⟨hok, rfl, ?_, h.2.1 2 (by decide)⟩
  rw [h.1]
  with_unfolding_all rfl

/-- C9: a line item that does not qualify for a stock mutation (quantity
missing, zero or negative, or item_id missing/zero) is still stored inside the
SaleRecord's items document, still contributes rate·quantity (missing fields
read as 0) to the taxable total, and causes no inventory UPDATE — the
inventory outcome equals that of the qualifying lines alone — while the sale
succeeds. -/
theorem C9_lenient_lines (year today : Nat) (st : State) (req : SaleReq) (bad : SaleLineItem)
    (hne : req.items.isEmpty = false) (hbad : bad ∈ req.items) (hq : qualifies bad = false) :
    isErr (recordSale noFaults year today st req).2 = false ∧
    (∃ sr : SaleRecord,
      (recordSale noFaults year today st req).1.sales = st.sales ++ [sr] ∧
      sr.items = req.items ∧ bad ∈ sr.items ∧
      sr.taxable_total = (req.items.map lineAmount).sum) ∧
    (recordSale noFaults year today st req).1.inventory
      = salesApply (req.items.filter qualifies) st.inventory ∧
    bad ∉ req.items.filter qualifies := by
  have hok := recordSale_noFaults_ok year today st req hne
  rw [hok]
  refine ⟨rfl, ⟨saleRecordOf year today st req, rfl, rfl, hbad, taxableTotalOf_eq req.items⟩,
    ?_, ?_⟩
  · exact (salesApply_filter req.items st.inventory).symm
  · intro hmem
    have := (List.mem_filter.mp hmem).2
    rw [hq] at this
    exact Bool.false_ne_true this

/-- C9 witness: a sale mixing a normal line with a negative-quantity line
against the concrete opening state. -/
theorem C9_lenient_lines_witness :
    qualifies negLine = false ∧
    negLine ∈ reqMixed.items ∧
    isErr (recordSale noFaults 2026 7 st0 reqMixed).2 = false ∧
    (recordSale noFaults 2026 7 st0 reqMixed).1.inventory
      = salesApply (reqMixed.items.filter qualifies) st0.inventory ∧
    negLine ∉ reqMixed.items.filter qualifies := by
  have hmem : negLine ∈ reqMixed.items := by simp [reqMixed]
  have h := C9_lenient_lines 2026 7 st0 reqMixed negLine rfl hmem (by decide)
  exact ⟨by decide, hmem, h.1, h.2.2.1, h.2.2.2⟩

/-- C7: summarize returns totalSales = Σ grandTotal of the sales inside the
inclusive date window, totalPurchases = Σ quantity·rate of the purchases in
range, totalExpenses = Σ amount of the expenses in range, and netProfit =
totalSales − (totalPurchases + totalExpenses); on the Scenario D state (one
purchase costing 450, one sale of 310, one expense of 50) it returns sales
310, purchases 450, expenses 50, netProfit −190. -/
theorem C7_report_summary :
    (∀ (fromD toD : Nat) (st : State),
      summarize fromD toD st =
        { sales := ((st.sales.filter (fun r => inRange fromD toD r.date)).map
              (fun r => r.grand_total)).sum
          purchases := ((st.purchases.filter (fun r => inRange fromD toD r.date)).map
              (fun r => r.quantity * r.rate)).sum
          expenses := ((st.expenses.filter (fun r => inRange fromD toD r.date)).map
              (fun r => r.amount)).sum
          netProfit := ((st.sales.filter (fun r => inRange fromD toD r.date)).map
              (fun r => r.grand_total)).sum
            - (((st.purchases.filter (fun r => inRange fromD toD r.date)).map
                (fun r => r.quantity * r.rate)).sum
              + ((st.expenses.filter (fun r => inRange fromD toD r.date)).map
                (fun r => r.amount)).sum) }) ∧
    summarize 1 31 stD = { sales := 310, purchases := 450, expenses := 50, netProfit := -190 } := by
  constructor
  · intro fromD toD st
    unfold summarize
    rw [foldl_add_eq_sum, foldl_add_eq_sum, foldl_add_eq_sum]
    simp
  · with_unfolding_all rfl

/-- C6: for a four-digit current year, every invoice number returned by a
successful recordSale is the template string of the source with sequence =
count of the sale records existing at generation time + 1 zero-padded to
three digits, matches the INV-4-digits-dash-3-or-more-digits pattern, and
over any sequential (non-concurrent) request trace the generated sequence
numbers are strictly increasing. -/
theorem C6_invoice_numbers (year today : Nat) (h1 : 1000 ≤ year) (h2 : year < 10000) :
    (∀ (faults : Nat → Bool) (st : State) (req : SaleReq) (out : SaleOut),
      (recordSale faults year today st req).2 = Except.ok out →
      out.invoice_number = mkInvoiceNumber year (st.sales.length + 1) ∧
      isInvoiceFormat out.invoice_number = true) ∧
    (∀ (st : State) (ops : List Op),
      List.Chain' (fun a b => a < b) (saleSeqs year today st ops)) := by
  constructor
  · intro faults st req out h
    rcases recordSale_cases faults year today st req with ⟨_, herr⟩ | ⟨inv, _, _, hc⟩
    · rw [h] at herr
      simp [isErr] at herr
    · rw [hc] at h
      have hout : out =
          { invoice_number := mkInvoiceNumber year (st.sales.length + 1)
            grand_total := saleGrand req } :=
        (Except.ok.inj h).symm
      rw [hout]
      exact ⟨rfl, mkInvoiceNumber_format year (st.sales.length + 1) h1 h2⟩
  · intro st ops
    exact (saleSeqs_chain year today ops st).1

/-- C6 witness: the first invoice of the concrete state is INV-2026-001, it
matches the pattern, and a three-request trace generates strictly increasing
sequence numbers. -/
theorem C6_invoice_numbers_witness :
    (recordSale noFaults 2026 12 stA reqB).2
      = Except.ok { invoice_number := mkInvoiceNumber 2026 1, grand_total := 310 } ∧
    mkInvoiceNumber 2026 1 = "INV-2026-001" ∧
    isInvoiceFormat (mkInvoiceNumber 2026 1) = true ∧
    saleSeqs 2026 12 st0 [Op.purchase reqA, Op.sale reqB, Op.sale reqB] = [1, 2] ∧
    List.Chain' (fun a b => a < b)
      (saleSeqs 2026 12 st0 [Op.purchase reqA, Op.sale reqB, Op.sale reqB]) := by
  have h := C6_invoice_numbers 2026 12 (by norm_num) (by norm_num)
  have hok : (recordSale noFaults 2026 12 stA reqB).2
      = Except.ok { invoice_number := mkInvoiceNumber 2026 1, grand_total := 310 } := by
    with_unfolding_all rfl
  have hfmt := (h.1 noFaults stA reqB _ hok).2
  refine ⟨hok, by with_unfolding_all rfl, by simpa using hfmt, by with_unfolding_all rfl,
    h.2 st0 _⟩

/-- C2 counterexample: a successful sale whose only line item has quantity −5
against item 1 is committed and stored, yet afterwards the stored quantity
(100) differs from opening quantity plus Σ purchased minus Σ sold over all
committed sale line items referencing the item (100 + 0 − (−5) = 105). -/
theorem C2_counterexample :
    isErr (recordSale noFaults 2026 7 st0 reqNegSale).2 = false ∧
    qtyOf (runOps 2026 7 st0 [Op.sale reqNegSale]).inventory 1 = 100 ∧
    purchSum (runOps 2026 7 st0 [Op.sale reqNegSale]).purchases 1 = 0 ∧
    soldSumAll (runOps 2026 7 st0 [Op.sale reqNegSale]).sales 1 = -5 ∧
    qtyOf st0.inventory 1 = 100 ∧
    ¬ (qtyOf (runOps 2026 7 st0 [Op.sale reqNegSale]).inventory 1
        = qtyOf st0.inventory 1
          + purchSum (runOps 2026 7 st0 [Op.sale reqNegSale]).purchases 1
          - soldSumAll (runOps 2026 7 st0 [Op.sale reqNegSale]).sales 1) := by
  refine ⟨?_, ?_, ?_, ?_, rfl, ?_⟩
  · with_unfolding_all rfl
  · with_unfolding_all rfl
  · with_unfolding_all rfl
  · with_unfolding_all rfl
  · with_unfolding_all decide

/-- C2 amended: conservation holds with Σ sold restricted to the line items
that drive a mutation, i.e. those with positive quantity (and a non-zero item
reference, the JavaScript-truthy form): for every item id i ≠ 0 present in
the inventory of an opening state with empty ledgers, after any sequence of
recordPurchase/recordSale requests (failed requests leave the state
unchanged), the stored quantity equals the opening quantity plus the sum of
committed purchase quantities referencing i minus the sum of positive
committed sale line-item quantities referencing i. -/
theorem C2_conservation (year today : Nat) (ops : List Op) (st : State) (i : Nat)
    (hi : i ≠ 0) (hmem : (st.inventory.any fun r => r.id == i) = true)
    (hp : st.purchases = []) (hs : st.sales = []) :
    qtyOf (runOps year today st ops).inventory i =
      qtyOf st.inventory i
        + purchSum (runOps year today st ops).purchases i
        - soldSumPos (runOps year today st ops).sales i := by
  have h := runOps_balance year today i hi ops st hmem
  rw [hp, hs] at h
  have h0p : purchSum [] i = 0 := rfl
  have h0s : soldSumPos [] i = 0 := rfl
  rw [h0p, h0s] at h
  linarith

/-- C2 amended witness: Scenario A then Scenario B — final quantity
120 = 100 + 50 − 30. -/
theorem C2_conservation_witness :
    (st0.inventory.any fun r => r.id == 1) = true ∧
    st0.purchases = [] ∧ st0.sales = [] ∧
    qtyOf (runOps 2026 12 st0 [Op.purchase reqA, Op.sale reqB]).inventory 1 = 120 ∧
    qtyOf st0.inventory 1
        + purchSum (runOps 2026 12 st0 [Op.purchase reqA, Op.sale reqB]).purchases 1
        - soldSumPos (runOps 2026 12 st0 [Op.purchase reqA, Op.sale reqB]).sales 1 = 120 := by
  have h := C2_conservation 2026 12 [Op.purchase reqA, Op.sale reqB] st0 1
    (by decide) rfl rfl rfl
  refine ⟨rfl, rfl, rfl, ?_, ?_⟩
  · with_unfolding_all rfl
  · rw [← h]
    with_unfolding_all rfl

end Wholesale
